import Mathlib

/-!
Verification of the multimodal RAG pipeline of this repository against its
natural-language specification.  The Lean definitions below are shallow
embeddings, translated directly from the Python sources under
`backend/core` and `backend/services`:

* `simple_embedding`, `get_query_embeddings`, `get_image_embeddings`
  from `core/colpali_client_simple.py` (class `SimpleColpaliClient`);
* `evaluate_retrieval_quality` from `core/rag_utils.py`
  (class `MultiModalRAG`);
* `create_points`, `insert_data`, `index_document` from
  `core/qdrant_utils.py` (class `VectorDBClient`) and `core/rag_utils.py`;
* `clean_process_query` from `core/clean_rag_system.py`
  (class `CleanRAGSystem`);
* `detect_query_type`, `process_document_query`, `process_web_search_query`,
  `process_general_query`, `unified_process_query` from
  `core/unified_agent.py` (class `UnifiedAgent`);
* `process_documents` from `services/document_service.py`
  (class `DocumentService`) together with `pdf_to_image` from
  `core/utils.py` (class `PdfConverter`).

External effects (numpy's global pseudo-random generator, the Qdrant
client, the Gemini model, the PDF renderer) are modelled by explicit state
passing or by environment records whose fields record the outcome of each
external call; Python dictionaries whose key sets differ between branches
are modelled as structures with default field values (a missing key is the
default), and a Python function that can return `None` is modelled with
`Option`.
-/

set_option autoImplicit false

/-! ### `core/colpali_client_simple.py` — SimpleColpaliClient -/

/-- Abstract state of numpy's global pseudo-random generator: the seed it
was last initialised with (`np.random.seed`) and how many values have been
drawn from it since.  The actual values drawn are given by an arbitrary
function `normal : seed → draws-so-far → count → values`, a parameter of
the development, so every theorem below holds for every possible generator
implementation. -/
structure NpState where
  seed : Nat
  draws : Nat
deriving DecidableEq, Repr

/-- `np.random.seed s`: resets the global generator deterministically. -/
def npSeed (s : Nat) : NpState :=
  { seed := s, draws := 0 }

/-- `np.random.normal(0, 1, n)` on the global generator: the drawn values
are a pure function of the generator state and `n`, and the state
advances by `n` draws. -/
def npNormal (normal : Nat → Nat → Nat → List Int) (n : Nat)
    (st : NpState) : List Int × NpState :=
  (normal st.seed st.draws n, { seed := st.seed, draws := st.draws + n })

/-- `SimpleColpaliClient._simple_embedding`: seeds numpy's global generator
with `int(md5(query), 16) % 2**32` and draws 768 standard-normal values.
`md5` stands for the integer value of the hexadecimal MD5 digest of the
query (a deterministic function of the string). -/
def simple_embedding (md5 : String → Nat)
    (normal : Nat → Nat → Nat → List Int) (query : String)
    (_st : NpState) : List Int × NpState :=
  npNormal normal 768 (npSeed (md5 query % 2 ^ 32))

/-- `SimpleColpaliClient.get_query_embeddings`.  `procAvailable` models
`self.processor is not None`; `raisesInTry` models an exception raised
inside the `try` block, whose `except` handler falls back to
`_simple_embedding`.  The processor branch itself computes exactly the
same hash-seeded 768-draw vector (`embedding_size = 768`). -/
def get_query_embeddings (md5 : String → Nat)
    (normal : Nat → Nat → Nat → List Int)
    (procAvailable raisesInTry : Bool) (query : String)
    (st : NpState) : List Int × NpState :=
  if procAvailable = false then
    simple_embedding md5 normal query st
  else if raisesInTry then
    simple_embedding md5 normal query st
  else
    npNormal normal 768 (npSeed (md5 query % 2 ^ 32))

/-- `SimpleColpaliClient.get_image_embeddings`, inner loop:
`for i, image in enumerate(images): self._simple_embedding(f"image_{i}")`.
The image itself (of arbitrary type `α`) is never inspected. -/
def get_image_embeddings_go {α : Type} (md5 : String → Nat)
    (normal : Nat → Nat → Nat → List Int) (i : Nat) :
    List α → NpState → List (List Int) × NpState
  | [], st => ([], st)
  | _ :: rest, st =>
    let p := simple_embedding md5 normal ("image_" ++ toString i) st
    let q := get_image_embeddings_go md5 normal (i + 1) rest p.2
    (p.1 :: q.1, q.2)

/-- `SimpleColpaliClient.get_image_embeddings`. -/
def get_image_embeddings {α : Type} (md5 : String → Nat)
    (normal : Nat → Nat → Nat → List Int) (images : List α)
    (st : NpState) : List (List Int) × NpState :=
  get_image_embeddings_go md5 normal 0 images st

/-- C4: the text-embedding function is deterministic — for every input
string, any two calls of `get_query_embeddings` on that string return the
same 768-element vector, irrespective of the incoming generator state,
of whether the processor is loaded (`degraded hash-based fallback mode`),
and of whether the `try` block raised.  Holds for every hash function and
every generator implementation because the code reseeds the generator
from the query hash before drawing. -/
theorem C4_embed_text_deterministic (md5 : String → Nat)
    (normal : Nat → Nat → Nat → List Int)
    (hlen : ∀ s d n, (normal s d n).length = n)
    (pa₁ pa₂ r₁ r₂ : Bool) (q : String) (st₁ st₂ : NpState) :
    (get_query_embeddings md5 normal pa₁ r₁ q st₁).1
      = (get_query_embeddings md5 normal pa₂ r₂ q st₂).1
    ∧ (get_query_embeddings md5 normal pa₁ r₁ q st₁).1.length = 768 := by
  constructor
  · cases pa₁ <;> cases pa₂ <;> cases r₁ <;> cases r₂ <;> rfl
  · cases pa₁ <;> cases r₁ <;>
      simp [get_query_embeddings, simple_embedding, npNormal, hlen]

/-- Closed witness for C4 at a concrete hash, generator, query and pair of
generator states. -/
theorem C4_embed_text_deterministic_witness :
    (get_query_embeddings (fun q => q.length)
        (fun s d n => List.replicate n (Int.ofNat (s + d)))
        true false "hello" { seed := 0, draws := 0 }).1
      = (get_query_embeddings (fun q => q.length)
        (fun s d n => List.replicate n (Int.ofNat (s + d)))
        false true "hello" { seed := 99, draws := 5 }).1
    ∧ (get_query_embeddings (fun q => q.length)
        (fun s d n => List.replicate n (Int.ofNat (s + d)))
        true false "hello" { seed := 0, draws := 0 }).1.length = 768 :=
  C4_embed_text_deterministic (fun q => q.length)
    (fun s d n => List.replicate n (Int.ofNat (s + d)))
    (fun _ _ _ => by simp) true false false true "hello"
    { seed := 0, draws := 0 } { seed := 99, draws := 5 }

theorem get_image_embeddings_go_content_free {α β : Type}
    (md5 : String → Nat) (normal : Nat → Nat → Nat → List Int) :
    ∀ (l₁ : List α) (l₂ : List β) (i : Nat) (st : NpState),
      l₁.length = l₂.length →
      get_image_embeddings_go md5 normal i l₁ st
        = get_image_embeddings_go md5 normal i l₂ st
  | [], [], _, _, _ => rfl
  | _ :: r₁, _ :: r₂, i, st, h => by
    simp only [get_image_embeddings_go]
    have ih := get_image_embeddings_go_content_free md5 normal r₁ r₂ (i + 1)
      (simple_embedding md5 normal ("image_" ++ toString i) st).2
      (by simpa using h)
    rw [ih]

/-- C10: the image-embedding function ignores image content — the `i`-th
returned vector embeds the string `"image_{i}"`, so any two image lists of
equal length receive identical embedding lists (in particular two
different images at the same index always receive the same vector). -/
theorem C10_image_embeddings_ignore_content {α β : Type}
    (md5 : String → Nat) (normal : Nat → Nat → Nat → List Int)
    (l₁ : List α) (l₂ : List β) (st : NpState)
    (h : l₁.length = l₂.length) :
    get_image_embeddings md5 normal l₁ st
      = get_image_embeddings md5 normal l₂ st :=
  get_image_embeddings_go_content_free md5 normal l₁ l₂ 0 st h

/-- Closed witness for C10: two lists holding entirely different "images"
(modelled as naturals) receive identical embeddings. -/
theorem C10_image_embeddings_ignore_content_witness :
    get_image_embeddings (fun q => q.length)
        (fun s d n => List.replicate n (Int.ofNat (s + d)))
        [1, 2] { seed := 0, draws := 0 }
      = get_image_embeddings (fun q => q.length)
        (fun s d n => List.replicate n (Int.ofNat (s + d)))
        [70, 80] { seed := 0, draws := 0 } :=
  C10_image_embeddings_ignore_content (fun q => q.length)
    (fun s d n => List.replicate n (Int.ofNat (s + d)))
    [1, 2] [70, 80] { seed := 0, draws := 0 } (by decide)

/-! ### `core/rag_utils.py` — MultiModalRAG.evaluate_retrieval_quality -/

/-- The evaluation dictionary returned by
`MultiModalRAG.evaluate_retrieval_quality`. -/
structure Evaluation where
  sufficient : Bool
  confidence : String
  reason : String
deriving DecidableEq, Repr

/-- `MultiModalRAG.evaluate_retrieval_quality`: only the `score` field of
each retrieved item's metadata is inspected, so the retrieved list is
modelled by its list of similarity scores (rationals standing for the
Python floats; the thresholds 0.8 and 0.6 are exact). -/
def evaluate_retrieval_quality (scores : List ℚ) : Evaluation :=
  if scores.isEmpty then
    { sufficient := false, confidence := "none",
      reason := "No documents retrieved" }
  else
    let avg := scores.sum / (scores.length : ℚ)
    if avg > 8 / 10 ∧ 2 ≤ scores.length then
      { sufficient := true, confidence := "high",
        reason := "High relevance scores" }
    else if avg > 6 / 10 ∧ 1 ≤ scores.length then
      { sufficient := true, confidence := "medium",
        reason := "Moderate relevance scores" }
    else
      { sufficient := false, confidence := "low",
        reason := "Low relevance scores" }

/-- C1: for a non-empty retrieved set the verdict is `sufficient` with
confidence `high` iff the mean score exceeds 0.8 and at least 2 results
were retrieved; otherwise `sufficient` with confidence `medium` iff the
mean exceeds 0.6 (at least 1 result holds trivially); otherwise
`insufficient`; and the empty retrieved set is always `insufficient`. -/
theorem C1_sufficiency_verdict (scores : List ℚ) :
    (evaluate_retrieval_quality []).sufficient = false
    ∧ (scores ≠ [] →
        (((evaluate_retrieval_quality scores).sufficient = true
            ∧ (evaluate_retrieval_quality scores).confidence = "high")
          ↔ (scores.sum / (scores.length : ℚ) > 8 / 10 ∧ 2 ≤ scores.length))
        ∧ (((evaluate_retrieval_quality scores).sufficient = true
            ∧ (evaluate_retrieval_quality scores).confidence = "medium")
          ↔ (¬(scores.sum / (scores.length : ℚ) > 8 / 10 ∧ 2 ≤ scores.length)
              ∧ scores.sum / (scores.length : ℚ) > 6 / 10
              ∧ 1 ≤ scores.length))
        ∧ ((evaluate_retrieval_quality scores).sufficient = false
          ↔ (¬(scores.sum / (scores.length : ℚ) > 8 / 10 ∧ 2 ≤ scores.length)
              ∧ ¬(scores.sum / (scores.length : ℚ) > 6 / 10
                  ∧ 1 ≤ scores.length)))) := by
  refine ⟨rfl, fun h => ?_⟩
  have hne : scores.isEmpty = false := by
    simpa [List.isEmpty_iff] using h
  by_cases hA : scores.sum / (scores.length : ℚ) > 8 / 10 ∧ 2 ≤ scores.length
  · have he : evaluate_retrieval_quality scores
        = { sufficient := true, confidence := "high",
            reason := "High relevance scores" } := by
      simp [evaluate_retrieval_quality, hne, hA]
    rw [he]
    refine ⟨iff_of_true ⟨rfl, rfl⟩ hA, ?_, ?_⟩
    · constructor
      · rintro ⟨-, hc⟩
        exact absurd hc (by decide)
      · rintro ⟨hna, -⟩
        exact absurd hA hna
    · constructor
      · intro hc
        exact absurd hc (by decide)
      · rintro ⟨hna, -⟩
        exact absurd hA hna
  · by_cases hB : scores.sum / (scores.length : ℚ) > 6 / 10
        ∧ 1 ≤ scores.length
    · have he : evaluate_retrieval_quality scores
          = { sufficient := true, confidence := "medium",
              reason := "Moderate relevance scores" } := by
        simp [evaluate_retrieval_quality, hne, hA, hB]
      rw [he]
      refine ⟨?_, iff_of_true ⟨rfl, rfl⟩ ⟨hA, hB⟩, ?_⟩
      · constructor
        · rintro ⟨-, hc⟩
          exact absurd hc (by decide)
        · intro hc
          exact absurd hc hA
      · constructor
        · intro hc
          exact absurd hc (by decide)
        · rintro ⟨-, hnb⟩
          exact absurd hB hnb
    · have he : evaluate_retrieval_quality scores
          = { sufficient := false, confidence := "low",
              reason := "Low relevance scores" } := by
        simp [evaluate_retrieval_quality, hne, hA, hB]
      rw [he]
      refine ⟨?_, ?_, iff_of_true rfl ⟨hA, hB⟩⟩
      · constructor
        · rintro ⟨hc, -⟩
          exact absurd hc (by decide)
        · intro hc
          exact absurd hc hA
      · constructor
        · rintro ⟨hc, -⟩
          exact absurd hc (by decide)
        · rintro ⟨-, hb⟩
          exact absurd hb hB

/-- Closed witness for C1: two results with scores 0.9 and 0.95 (mean
0.925 > 0.8) are judged `sufficient` with confidence `high`. -/
theorem C1_sufficiency_verdict_witness :
    (evaluate_retrieval_quality [9/10, 19/20]).sufficient = true
    ∧ (evaluate_retrieval_quality [9/10, 19/20]).confidence = "high" :=
  (((C1_sufficiency_verdict [9/10, 19/20]).2 (by decide)).1).mpr
    (by norm_num)

/-! ### `core/qdrant_utils.py` — VectorDBClient -/

/-- One element of the `dataset` list handed to
`VectorDBClient.create_points` / `insert_data` (built by the PDF
converter): a dictionary with keys `doc_id`, `page_number`, `filename`
and `image` (the raster image, modelled opaquely as a natural). -/
structure DatasetItem where
  doc_id : Nat
  page_number : Nat
  filename : String
  image : Nat
deriving DecidableEq, Repr

/-- A Qdrant `PointStruct` as built by `create_points`: id `i + j`, the
embedding vector, and the payload keys `doc_id`, `page_num`, `source`. -/
structure PointStruct where
  id : Nat
  vector : List Int
  doc_id : Nat
  page_num : Nat
  source : String
deriving DecidableEq, Repr

/-- The inner loop of `create_points`:
`for j, embedding in enumerate(image_embeddings): points.append(...)`,
pairing the `j`-th embedding with `batch[j]` and giving it id `i0 + j`.
(The embedding client returns one embedding per image, so the two lists
have equal length.) -/
def mkPoints (i0 : Nat) : List (List Int) → List DatasetItem →
    List PointStruct
  | e :: es, b :: bs =>
    { id := i0, vector := e, doc_id := b.doc_id,
      page_num := b.page_number, source := b.filename }
      :: mkPoints (i0 + 1) es bs
  | _, _ => []

/-- `VectorDBClient.create_points`: iterates over the dataset in batches
of `batch_size` (default 5), but the `return points` statement sits
inside the first loop iteration, so only the first batch is ever embedded
and turned into points.  An empty dataset makes the loop body never run
and the function fall through, returning Python `None` (here `none`).
`embedImages` is the embedding client's `get_image_embeddings`. -/
def create_points (embedImages : List Nat → List (List Int))
    (dataset : List DatasetItem) (batch_size : Nat := 5) :
    Option (List PointStruct) :=
  match dataset with
  | [] => none
  | _ :: _ =>
    let batch := dataset.take batch_size
    some (mkPoints 0 (embedImages (batch.map DatasetItem.image)) batch)

/-- Offsets visited by Python's `range(0, len, bs)` for `bs > 0`. -/
def batchStarts (len bs : Nat) : List Nat :=
  (List.range ((len + bs - 1) / bs)).map (· * bs)

/-- The loop of `VectorDBClient.insert_data` over the batch offsets:
`points[i:i+bs]` is upserted; if the upsert raises, the error is printed
and the loop `continue`s.  `upsertOk i` records whether the upsert of the
batch starting at offset `i` succeeds.  The returned list is the list of
points actually stored; the Python function itself returns `None` and
reports no count. -/
def insert_data_go (upsertOk : Nat → Bool) (points : List PointStruct)
    (bs : Nat) : List Nat → List PointStruct
  | [] => []
  | i :: rest =>
    let batch := (points.drop i).take bs
    if upsertOk i then batch ++ insert_data_go upsertOk points bs rest
    else insert_data_go upsertOk points bs rest

/-- `VectorDBClient.insert_data` (the batching is driven by
`range(0, len(dataset), batch_size)`, i.e. by the dataset length, not by
the points list). -/
def insert_data (upsertOk : Nat → Bool) (points : List PointStruct)
    (datasetLen : Nat) (bs : Nat := 5) : List PointStruct :=
  insert_data_go upsertOk points bs (batchStarts datasetLen bs)

/-- `MultiModalRAG.index_document`: `create_points` then `insert_data`.
When `create_points` returns `None` the dataset was empty, so the
`insert_data` loop body never runs and nothing is stored. -/
def index_document (embedImages : List Nat → List (List Int))
    (upsertOk : Nat → Bool) (dataset : List DatasetItem) :
    List PointStruct :=
  match create_points embedImages dataset with
  | none => []
  | some pts => insert_data upsertOk pts dataset.length

theorem insert_data_go_filter_flatMap (upsertOk : Nat → Bool)
    (points : List PointStruct) (bs : Nat) :
    ∀ starts : List Nat,
      insert_data_go upsertOk points bs starts
        = (starts.filter upsertOk).flatMap
            (fun i => (points.drop i).take bs)
  | [] => rfl
  | i :: rest => by
    simp only [insert_data_go, List.filter_cons]
    by_cases h : upsertOk i
    · simp [h, insert_data_go_filter_flatMap upsertOk points bs rest]
    · simp [h, insert_data_go_filter_flatMap upsertOk points bs rest]

theorem mkPoints_mem {pt : PointStruct} :
    ∀ (i0 : Nat) (es : List (List Int)) (bs : List DatasetItem),
      pt ∈ mkPoints i0 es bs →
      ∃ b ∈ bs, pt.doc_id = b.doc_id ∧ pt.page_num = b.page_number
        ∧ pt.source = b.filename
  | _, [], _, h => by simp [mkPoints] at h
  | _, _ :: _, [], h => by simp [mkPoints] at h
  | i0, e :: es, b :: bs, h => by
    rcases List.mem_cons.mp h with h | h
    · exact ⟨b, List.mem_cons_self _ _, by simp [h]⟩
    · obtain ⟨b', hb', hprop⟩ := mkPoints_mem (i0 + 1) es bs h
      exact ⟨b', List.mem_cons_of_mem _ hb', hprop⟩

theorem mkPoints_length :
    ∀ (i0 : Nat) (es : List (List Int)) (bs : List DatasetItem),
      (mkPoints i0 es bs).length = min es.length bs.length
  | _, [], _ => by simp [mkPoints]
  | _, _ :: _, [] => by simp [mkPoints]
  | i0, e :: es, b :: bs => by
    simp [mkPoints, mkPoints_length (i0 + 1) es bs,
      Nat.succ_min_succ]

theorem insert_data_subset (upsertOk : Nat → Bool)
    (points : List PointStruct) (len bs : Nat) {pt : PointStruct}
    (h : pt ∈ insert_data upsertOk points len bs) : pt ∈ points := by
  rw [insert_data, insert_data_go_filter_flatMap] at h
  obtain ⟨i, _, hmem⟩ := List.mem_flatMap.mp h
  exact List.drop_subset _ _ (List.take_subset _ _ hmem)

/-- C9: for every dataset of more than `batch_size = 5` items,
`create_points` returns after processing only the first batch: the result
depends only on the first 5 items, holds exactly 5 points, and every
record `index_document` ever stores is one of those 5 points — all
subsequent pages of the dataset are silently omitted from indexing. -/
theorem C9_create_points_first_batch_only
    (embedImages : List Nat → List (List Int))
    (hlen : ∀ l, (embedImages l).length = l.length)
    (dataset : List DatasetItem) (h : 5 < dataset.length) :
    create_points embedImages dataset
        = some (mkPoints 0
            (embedImages ((dataset.take 5).map DatasetItem.image))
            (dataset.take 5))
    ∧ ((create_points embedImages dataset).getD []).length = 5
    ∧ (∀ (upsertOk : Nat → Bool) (pt : PointStruct),
        pt ∈ index_document embedImages upsertOk dataset →
        pt ∈ (create_points embedImages dataset).getD [])
    ∧ (∀ d₂ : List DatasetItem, d₂ ≠ [] → d₂.take 5 = dataset.take 5 →
        create_points embedImages d₂ = create_points embedImages dataset) := by
  have hds : dataset ≠ [] := by
    intro hnil
    rw [hnil] at h
    exact absurd h (by decide)
  have hcp : create_points embedImages dataset
      = some (mkPoints 0
          (embedImages ((dataset.take 5).map DatasetItem.image))
          (dataset.take 5)) := by
    cases dataset with
    | nil => exact absurd rfl hds
    | cons a l => rfl
  refine ⟨hcp, ?_, ?_, ?_⟩
  · rw [hcp, Option.getD_some, mkPoints_length, hlen, List.length_map,
      List.length_take]
    omega
  · intro upsertOk pt hpt
    rw [index_document, hcp] at hpt
    rw [hcp, Option.getD_some]
    exact insert_data_subset upsertOk _ _ _ hpt
  · intro d₂ hne htake
    cases d₂ with
    | nil => exact absurd rfl hne
    | cons a l =>
      rw [hcp]
      simp only [create_points]
      rw [htake]

/-- Closed witness for C9: a 7-item dataset yields exactly 5 points. -/
theorem C9_create_points_first_batch_only_witness :
    ((create_points (fun l => l.map (fun x => [Int.ofNat x]))
        ((List.range 7).map
          (fun n => { doc_id := 1, page_number := n + 1,
                      filename := "doc.pdf", image := n }))).getD
      []).length = 5 :=
  (C9_create_points_first_batch_only
    (fun l => l.map (fun x => [Int.ofNat x])) (fun l => by simp)
    ((List.range 7).map
      (fun n => { doc_id := 1, page_number := n + 1,
                  filename := "doc.pdf", image := n }))
    (by decide)).2.1

/-- Concrete points for the C7 counterexample: seven points with ids 0–6,
as `create_points` would build for a seven-page document (ids 0–4 from the
first batch; 5 and 6 stand in for a hypothetical second batch). -/
def c7points : List PointStruct :=
  (List.range 7).map fun n =>
    { id := n, vector := [], doc_id := 1, page_num := n + 1,
      source := "f.pdf" }

/-- C7 counterexample: with seven records in sub-batches of 5, if the
upsert of the first sub-batch (offset 0) fails and the second (offset 5)
succeeds, `insert_data` stores only the two points of the second
sub-batch; the five points of the failing sub-batch — e.g. the point with
id 0 — are absent from the stored records, no retry is possible in the
single-pass loop, and no count is reported (the Python function returns
`None`).  This refutes the claim that a failing sub-batch is retried and
then reported as a partial success rather than silently dropped. -/
theorem C7_counterexample :
    insert_data (fun i => decide (0 < i)) c7points 7
      = [{ id := 5, vector := [], doc_id := 1, page_num := 6,
           source := "f.pdf" },
         { id := 6, vector := [], doc_id := 1, page_num := 7,
           source := "f.pdf" }]
    ∧ ({ id := 0, vector := [], doc_id := 1, page_num := 1,
         source := "f.pdf" } : PointStruct) ∈ c7points
    ∧ ({ id := 0, vector := [], doc_id := 1, page_num := 1,
         source := "f.pdf" } : PointStruct)
        ∉ insert_data (fun i => decide (0 < i)) c7points 7 := by
  refine ⟨by decide, by decide, by decide⟩

/-- C7 amended: `insert_data` attempts each sub-batch exactly once (the
single-pass loop performs no retry), stores exactly the sub-batches whose
upsert succeeded, and silently skips every failing sub-batch — the
exception is only printed, the function returns `None`, and no count of
stored records is reported to the caller. -/
theorem C7_amended_failed_batches_dropped (upsertOk : Nat → Bool)
    (points : List PointStruct) (datasetLen bs : Nat) :
    insert_data upsertOk points datasetLen bs
      = ((batchStarts datasetLen bs).filter upsertOk).flatMap
          (fun i => (points.drop i).take bs) :=
  insert_data_go_filter_flatMap upsertOk points bs
    (batchStarts datasetLen bs)

/-! ### `core/clean_rag_system.py` — CleanRAGSystem -/

/-- The payload of a vector record in the `documents` collection.  Every
record of that collection is built by
`CleanRAGSystem.process_document_upload` (lines 142–154), which always
sets `doc_id`, `page_number`, `filename`, `text_content`, `image_path`,
so search results carry these keys. -/
structure QPayload where
  doc_id : Nat
  page_number : Nat
  filename : String
  text_content : String
  image_path : String
deriving DecidableEq, Repr

/-- One entry of the `retrieved_images` list built by
`CleanRAGSystem.process_query` from a search result's payload and score. -/
structure RetrievedImage where
  filename : String
  page_number : Nat
  image_path : String
  text_content : String
  score : ℚ
deriving DecidableEq, Repr

/-- The dictionary returned by `CleanRAGSystem.process_query`.  Python
branches return dictionaries with different key sets; a key a branch does
not set is modelled by the default value (matching the `result.get(key,
default)` reads in `UnifiedAgent._process_document_query`). -/
structure CleanResult where
  status : String
  response : String := ""
  message : String := ""
  vectors_searched : Nat := 0
  images_retrieved : Nat := 0
  gemini_analysis : String := ""
  retrieved_images : List RetrievedImage := []
deriving DecidableEq, Repr

/-- Outcomes of the external calls made by `CleanRAGSystem.process_query`:
whether embedding generation plus vector search complete without raising,
whether the Gemini model is configured (`self._gemini` non-None), whether
`generate_content` returns without raising, and the text it returns. -/
structure CleanEnv where
  searchOk : Bool
  geminiAvailable : Bool
  geminiOk : Bool
  geminiText : String
deriving DecidableEq, Repr

/-- The numbered document list written into the final response:
`for i, img in enumerate(retrieved_images[:3], 1): ...`. -/
def numberedLines : Nat → List RetrievedImage → String
  | _, [] => ""
  | i, img :: rest =>
    toString i ++ ". **" ++ img.filename ++ "** (Page "
      ++ toString img.page_number ++ ")\n"
      ++ numberedLines (i + 1) rest

/-- The `final_response` f-string assembled by
`CleanRAGSystem.process_query` on the Gemini path. -/
def cleanFinalResponse (retrieved : List RetrievedImage)
    (geminiResponse : String) : String :=
  "🔍 **Search Results:**\nI found " ++ toString retrieved.length
    ++ " relevant documents in your uploaded files:\n\n"
    ++ numberedLines 1 (retrieved.take 3)
    ++ "\n📋 **Analysis:**\n" ++ geminiResponse
    ++ "\n\n💾 **Source:** Documents and images stored in QDRANT cloud cluster\n🔗 **Images Retrieved:** "
    ++ toString retrieved.length ++ " images from vector search"

/-- `CleanRAGSystem.process_query`: embeds the query, searches the vector
index (`searchResults` is the `(payload, score)` list the search call
returns), builds `retrieved_images`, and either runs Gemini over the
contexts or returns the "didn't find" response.  Note that no sufficiency
verdict is computed: the else-branch (no results or no Gemini) still
returns `status = "success"`. -/
def clean_process_query (env : CleanEnv) (query : String)
    (searchResults : List (QPayload × ℚ)) : CleanResult :=
  if env.searchOk = false then
    { status := "error",
      message := "Query processing failed: search raised" }
  else
    let retrieved : List RetrievedImage := searchResults.map fun pr =>
      { filename := pr.1.filename, page_number := pr.1.page_number,
        image_path := pr.1.image_path, text_content := pr.1.text_content,
        score := pr.2 }
    if retrieved.isEmpty = false ∧ env.geminiAvailable then
      if env.geminiOk then
        { status := "success",
          response := cleanFinalResponse retrieved env.geminiText,
          vectors_searched := searchResults.length,
          images_retrieved := retrieved.length,
          gemini_analysis := env.geminiText,
          retrieved_images := retrieved }
      else
        { status := "error",
          message := "Analysis failed: generate_content raised" }
    else
      { status := "success",
        response := "I searched your uploaded documents but didn\x27t find specific information about \x27"
          ++ query
          ++ "\x27. You may want to upload more relevant documents or try a different query.",
        vectors_searched := searchResults.length,
        images_retrieved := 0,
        gemini_analysis := "No relevant documents found." }

/-- C6: citation grounding — every `(filename, page_number)` pair carried
by the answer's citation list (`retrieved_images`, the first three of
which are also printed into the response) comes from a payload actually
present in the search results passed to the synthesis step; the
synthesizer never emits a filename or page number absent from its input
contexts. -/
theorem C6_citation_grounding (env : CleanEnv) (query : String)
    (searchResults : List (QPayload × ℚ)) (img : RetrievedImage)
    (h : img ∈ (clean_process_query env query searchResults).retrieved_images) :
    ∃ pr ∈ searchResults,
      pr.1.filename = img.filename
        ∧ pr.1.page_number = img.page_number := by
  by_cases hs : env.searchOk = false
  · rw [clean_process_query, if_pos hs] at h
    simp at h
  · rw [clean_process_query, if_neg hs] at h
    by_cases hg : (searchResults.map fun pr =>
        ({ filename := pr.1.filename, page_number := pr.1.page_number,
           image_path := pr.1.image_path,
           text_content := pr.1.text_content,
           score := pr.2 } : RetrievedImage)).isEmpty = false
        ∧ env.geminiAvailable
    · rw [if_pos hg] at h
      by_cases hk : env.geminiOk
      · rw [if_pos hk] at h
        simp only [CleanResult.retrieved_images, List.mem_map] at h
        obtain ⟨pr, hpr, heq⟩ := h
        exact ⟨pr, hpr, by rw [← heq], by rw [← heq]⟩
      · rw [if_neg hk] at h
        simp at h
    · rw [if_neg hg] at h
      simp at h

/-- A concrete payload for the C6 witness, as `process_document_upload`
stores it for page 2 of `manual.pdf`. -/
def c6payload : QPayload :=
  { doc_id := 1, page_number := 2, filename := "manual.pdf",
    text_content := "Document: manual.pdf, Page: 2",
    image_path := "img.png" }

/-- The retrieved-image entry `process_query` builds from `c6payload`. -/
def c6img : RetrievedImage :=
  { filename := "manual.pdf", page_number := 2, image_path := "img.png",
    text_content := "Document: manual.pdf, Page: 2", score := 9/10 }

/-- A concrete environment for the C6 witness: search succeeds and the
Gemini model is configured and answers. -/
def c6env : CleanEnv :=
  { searchOk := true, geminiAvailable := true, geminiOk := true,
    geminiText := "Page 2 covers installation." }

/-- Closed witness for C6 at a concrete search-result set: the citation
`("manual.pdf", 2)` in the answer traces back to the retrieved payload. -/
theorem C6_citation_grounding_witness :
    ∃ pr ∈ [(c6payload, (9 : ℚ)/10)],
      pr.1.filename = c6img.filename
        ∧ pr.1.page_number = c6img.page_number := by
  have hl : (clean_process_query c6env "installation steps"
      [(c6payload, (9 : ℚ)/10)]).retrieved_images = [c6img] := by rfl
  have h : c6img ∈ (clean_process_query c6env "installation steps"
      [(c6payload, (9 : ℚ)/10)]).retrieved_images := by
    rw [hl]
    exact List.mem_singleton_self _
  exact C6_citation_grounding c6env "installation steps"
    [(c6payload, (9 : ℚ)/10)] c6img h

/-! ### `core/unified_agent.py` — UnifiedAgent -/

/-- Python's `sub in s` on strings: substring containment. -/
def strContains (s pat : String) : Bool :=
  decide (pat.data <:+: s.data)

/-- Python's `str.lower()`: lower-cases every character. -/
def pyLower (s : String) : String :=
  String.mk (s.data.map Char.toLower)

/-- The `document_keywords` list of `UnifiedAgent._detect_query_type`. -/
def document_keywords : List String :=
  ["document", "file", "pdf", "report", "upload", "uploaded",
   "my document", "my file", "my pdf", "my report",
   "what is in", "what does it say", "summarize", "extract",
   "find in document", "search document", "read document"]

/-- The `web_keywords` list of `UnifiedAgent._detect_query_type`. -/
def web_keywords : List String :=
  ["latest", "news", "current", "recent", "today", "yesterday",
   "weather", "stock", "price", "market", "live", "real-time",
   "what happened", "what is happening", "trending", "popular"]

/-- The dictionary returned by `UnifiedAgent._detect_query_type`. -/
structure QueryAnalysis where
  type : String
  confidence : ℚ
  reason : String
  documents_available : Nat
deriving DecidableEq, Repr

/-- `UnifiedAgent._detect_query_type`.  `ragAvailable` models
`self.rag_system` being non-None; `docCount` is the value
`get_document_count()` returns (that method catches its own exceptions
and returns 0, and the surrounding `try/except: pass` keeps `doc_count`
at 0 when the RAG system is absent). -/
def detect_query_type (ragAvailable : Bool) (docCount : Nat)
    (query : String) : QueryAnalysis :=
  let ql := pyLower query
  let document_score := document_keywords.countP fun k => strContains ql k
  let web_score := web_keywords.countP fun k => strContains ql k
  let doc_count := if ragAvailable then docCount else 0
  if 0 < document_score ∧ 0 < doc_count then
    { type := "document", confidence := 9/10,
      reason := "Query contains document keywords ("
        ++ toString document_score
        ++ " matches) and documents are available ("
        ++ toString doc_count ++ " docs)",
      documents_available := doc_count }
  else if 0 < web_score then
    { type := "web_search", confidence := 8/10,
      reason := "Query contains web search keywords ("
        ++ toString web_score ++ " matches)",
      documents_available := doc_count }
  else if 0 < doc_count then
    { type := "document", confidence := 7/10,
      reason := "No specific keywords but documents are available ("
        ++ toString doc_count ++ " docs)",
      documents_available := doc_count }
  else
    { type := "general", confidence := 6/10,
      reason := "General knowledge query - no specific keywords or documents",
      documents_available := doc_count }

/-- The dictionary returned by `UnifiedAgent.process_query` and its
helpers; a key a branch does not set is modelled by the default value. -/
structure AgentResult where
  status : String
  message : String := ""
  response : String := ""
  source : String
  source_justification : String := ""
  documents_found : Nat := 0
  vectors_searched : Nat := 0
  gemini_analysis : String := ""
  web_results_found : Nat := 0
  knowledge_type : String := ""
  agent_type : String := ""
  query_type : String := ""
  confidence : ℚ := 0
  reason : String := ""
  source_badge : String := ""
deriving DecidableEq, Repr

/-- Environment of one `UnifiedAgent.process_query` call: whether the RAG
system initialised (`self.rag_system` non-None), the document count, the
outcomes of the CleanRAGSystem's external calls, the search results the
vector index returns, and the wall-clock strings used by the built-in
`time`/`date` responses. -/
structure AgentEnv where
  ragAvailable : Bool
  docCount : Nat
  cleanEnv : CleanEnv
  searchResults : List (QPayload × ℚ)
  nowTime : String
  nowDate : String
deriving DecidableEq, Repr

/-- `UnifiedAgent._process_document_query`: delegates to
`CleanRAGSystem.process_query` and labels the outcome with
`source = "document"` on every branch — success, RAG-unavailable and
error alike; there is no fallback to web search here. -/
def process_document_query (env : AgentEnv) (query : String) :
    AgentResult :=
  if env.ragAvailable = false then
    { status := "error", message := "RAG system not available",
      source := "document",
      source_justification := "Attempted document search but RAG system unavailable" }
  else
    let r := clean_process_query env.cleanEnv query env.searchResults
    if r.status = "success" then
      { status := "success", response := r.response,
        source := "document",
        source_justification := "Results generated from "
          ++ toString r.images_retrieved
          ++ " document images using vector search and Gemini analysis",
        documents_found := r.images_retrieved,
        vectors_searched := r.vectors_searched,
        gemini_analysis := r.gemini_analysis }
    else
      { status := "error",
        message := if r.message = "" then "Document query failed"
          else r.message,
        source := "document",
        source_justification := "Attempted document search but no relevant results found" }

/-- The simulated web-search response text assembled by
`UnifiedAgent._process_web_search_query` (one simulated result). -/
def webSearchResponse (query : String) : String :=
  "🔍 **Web Search Results:**\nI found 1 web search results for your query.\n\n**Results:**\n"
    ++ "1. **Web result for: " ++ query
    ++ "**\n   This is a simulated web search result for \"" ++ query
    ++ "\". In a real implementation, this would be actual web search results.\n   Source: https://example.com/search-result\n\n"
    ++ "📋 **Analysis:**\nBased on web search results, here\x27s what I found about \""
    ++ query
    ++ "\".\n\n💾 **Source:** Web search results from internet\n🔗 **Results Found:** 1 web pages"

/-- `UnifiedAgent._process_web_search_query`: simulates one web result and
always succeeds with `source = "web_search"`. -/
def process_web_search_query (query : String) : AgentResult :=
  { status := "success", response := webSearchResponse query,
    source := "web_search",
    source_justification := "Results generated from 1 web search results using internet search",
    web_results_found := 1 }

/-- The `responses` dictionary of `UnifiedAgent._process_general_query`
(Python dictionaries preserve insertion order). -/
def general_responses (nowTime nowDate : String) :
    List (String × String) :=
  [("hello", "Hello! How can I help you today?"),
   ("help", "I can help you with various tasks. What would you like to know?"),
   ("weather", "I don\x27t have access to real-time weather data, but I can help you with other questions!"),
   ("time", "The current time is " ++ nowTime),
   ("date", "Today is " ++ nowDate)]

/-- The lookup loop `for key, response in responses.items(): if key in
query_lower: return ...`. -/
def findBuiltin (ql : String) : List (String × String) → Option String
  | [] => none
  | (k, v) :: rest =>
    if strContains ql k then some v else findBuiltin ql rest

/-- `UnifiedAgent._process_general_query`: always succeeds with
`source = "general_knowledge"`. -/
def process_general_query (env : AgentEnv) (query : String) :
    AgentResult :=
  match findBuiltin (pyLower query)
      (general_responses env.nowTime env.nowDate) with
  | some resp =>
    { status := "success", response := resp,
      source := "general_knowledge",
      source_justification := "Response generated from general knowledge and built-in responses",
      knowledge_type := "built_in_response" }
  | none =>
    { status := "success",
      response := "I understand you said: \"" ++ query
        ++ "\". This is a general knowledge response based on my training data.",
      source := "general_knowledge",
      source_justification := "Response generated from general knowledge and training data",
      knowledge_type := "training_data" }

/-- The `source_badge` lookup table of `UnifiedAgent.process_query`. -/
def source_badge_table : List (String × String) :=
  [("document", "📄 Document Search"),
   ("web_search", "🌐 Web Search"),
   ("general_knowledge", "🧠 General Knowledge")]

/-- `UnifiedAgent.process_query`.  A non-string query (`none`, i.e. Python
`None`) makes `query.lower()` raise `AttributeError` inside
`_detect_query_type`; the top-level `except` handler catches it and
returns a dictionary with `source = "error"`.  For a string query the
three type-specific handlers are total (each has its own catch-all
handler), the result is routed on the detected type, and the
unified-agent metadata and source badge are added. -/
def unified_process_query (env : AgentEnv) (query : Option String) :
    AgentResult :=
  match query with
  | none =>
    { status := "error",
      message := "Unified Agent failed: \x27NoneType\x27 object has no attribute \x27lower\x27",
      agent_type := "unified", source := "error",
      source_justification := "Query processing failed due to error: \x27NoneType\x27 object has no attribute \x27lower\x27" }
  | some q =>
    let qa := detect_query_type env.ragAvailable env.docCount q
    let r :=
      if qa.type = "document" then process_document_query env q
      else if qa.type = "web_search" then process_web_search_query q
      else process_general_query env q
    { r with agent_type := "unified", query_type := qa.type,
             confidence := qa.confidence, reason := qa.reason,
             source_badge :=
               (source_badge_table.lookup r.source).getD "❓ Unknown" }

theorem process_document_query_source (env : AgentEnv) (q : String) :
    (process_document_query env q).source = "document" := by
  simp only [process_document_query]
  split_ifs <;> rfl

theorem process_general_query_source (env : AgentEnv) (q : String) :
    (process_general_query env q).source = "general_knowledge" := by
  rw [process_general_query]
  cases findBuiltin (pyLower q)
    (general_responses env.nowTime env.nowDate) <;> rfl

theorem unified_process_query_some_source (env : AgentEnv) (q : String) :
    (unified_process_query env (some q)).source
      = (if (detect_query_type env.ragAvailable env.docCount q).type
            = "document" then
          process_document_query env q
        else if (detect_query_type env.ragAvailable env.docCount q).type
            = "web_search" then
          process_web_search_query q
        else process_general_query env q).source := rfl

theorem process_web_search_query_source (q : String) :
    (process_web_search_query q).source = "web_search" := rfl

theorem process_general_query_status (env : AgentEnv) (q : String) :
    (process_general_query env q).status = "success" := by
  rw [process_general_query]
  cases findBuiltin (pyLower q)
    (general_responses env.nowTime env.nowDate) <;> rfl

/-- A concrete environment for the C3 counterexample. -/
def c3env : AgentEnv :=
  { ragAvailable := true, docCount := 0,
    cleanEnv := { searchOk := true, geminiAvailable := false,
                  geminiOk := false, geminiText := "" },
    searchResults := [], nowTime := "00:00:00", nowDate := "2026-10-12" }

/-- C3 counterexample: calling `process_query` with a non-string query
(Python `None`) makes `query.lower()` raise `AttributeError`; the
top-level handler catches it and returns `source = "error"`, which is
none of the three defined source values.  This refutes the claim that
the returned `source` is one of `document` / `web_search` /
`general_knowledge` on every error path. -/
theorem C3_counterexample :
    (unified_process_query c3env none).source = "error"
    ∧ (unified_process_query c3env none).source
        ∉ (["document", "web_search", "general_knowledge"] : List String) :=
  ⟨rfl, by decide⟩

/-- C3 amended: for every *string* query the returned `source` is exactly
one of `document`, `web_search`, `general_knowledge` (the three
type-specific handlers each set it on success and error branches alike);
only the top-level exception path — reachable e.g. with a non-string
query — returns the out-of-range value `source = "error"`. -/
theorem C3_amended_source_disclosure (env : AgentEnv) (q : String) :
    (unified_process_query env (some q)).source
      ∈ (["document", "web_search", "general_knowledge"] : List String) := by
  rw [unified_process_query_some_source]
  split_ifs
  · rw [process_document_query_source]
    decide
  · rw [process_web_search_query_source]
    decide
  · rw [process_general_query_source]
    decide

/-- A concrete environment for the C2 counterexample and C2 witness:
documents exist (`docCount = 3`), the RAG system and Gemini are up, but
the vector search returns zero results for the query. -/
def c2env : AgentEnv :=
  { ragAvailable := true, docCount := 3,
    cleanEnv := { searchOk := true, geminiAvailable := true,
                  geminiOk := true, geminiText := "unused" },
    searchResults := [], nowTime := "00:00:00", nowDate := "2026-10-12" }

/-- C2 counterexample: the query `"summarize my document"` is classified
to the document path; the retrieval step returns zero results — on which
`evaluate_retrieval_quality` pronounces `insufficient` — yet the agent
returns a final answer with `source = "document"` (and `status =
"success"`, carrying the "didn\x27t find" response).  No fallback to
`web_search` or `general_knowledge` occurs, refuting the claim. -/
theorem C2_counterexample :
    c2env.searchResults = []
    ∧ (evaluate_retrieval_quality
        (c2env.searchResults.map Prod.snd)).sufficient = false
    ∧ (unified_process_query c2env
        (some "summarize my document")).source = "document"
    ∧ (unified_process_query c2env
        (some "summarize my document")).status = "success" := by
  exact ⟨rfl, rfl, by decide, by decide⟩

/-- C2 amended: whenever the query is classified to the document path,
the agent returns `source = "document"` regardless of the retrieval
outcome — in particular with zero retrieved results (an `insufficient`
verdict).  Routing to `web_search` or `general_knowledge` happens only
through the pre-retrieval keyword classification (or when no documents
exist), never as a fallback from insufficient retrieval. -/
theorem C2_amended_document_path_keeps_document_source
    (env : AgentEnv) (q : String)
    (h : (detect_query_type env.ragAvailable env.docCount q).type
      = "document") :
    (unified_process_query env (some q)).source = "document" := by
  rw [unified_process_query_some_source, if_pos h]
  exact process_document_query_source env q

/-- Closed witness for the amended C2 at the counterexample input. -/
theorem C2_amended_document_path_keeps_document_source_witness :
    (unified_process_query c2env
      (some "summarize my document")).source = "document" :=
  C2_amended_document_path_keeps_document_source c2env
    "summarize my document" (by decide)

/-- C8: with zero documents ever ingested (`get_document_count()` returns
0) the classifier never selects the document path, so the answer's
`source` is `web_search` or `general_knowledge` — never `document` — and
the call returns a structured success result rather than raising (every
handler on this path returns `status = "success"`). -/
theorem C8_empty_corpus_never_document (env : AgentEnv) (q : String)
    (h : env.docCount = 0) :
    (unified_process_query env (some q)).source ≠ "document"
    ∧ (unified_process_query env (some q)).source
        ∈ (["web_search", "general_knowledge"] : List String)
    ∧ (unified_process_query env (some q)).status = "success" := by
  have hdc : (if env.ragAvailable then env.docCount else 0) = 0 := by
    cases env.ragAvailable <;> simp [h]
  have htype : (detect_query_type env.ragAvailable env.docCount q).type
        = "web_search"
      ∨ (detect_query_type env.ragAvailable env.docCount q).type
        = "general" := by
    by_cases hw : 0 < web_keywords.countP
        (fun k => strContains (pyLower q) k)
    · left
      simp [detect_query_type, hdc, hw]
    · right
      simp [detect_query_type, hdc, hw]
  rcases htype with ht | ht
  · have hs : (unified_process_query env (some q)).source = "web_search" := by
      rw [unified_process_query_some_source, ht,
        if_neg (by decide : ¬("web_search" : String) = "document"),
        if_pos rfl]
      exact process_web_search_query_source q
    have hst : (unified_process_query env (some q)).status = "success" := by
      have : (unified_process_query env (some q)).status
          = (if (detect_query_type env.ragAvailable env.docCount q).type
                = "document" then process_document_query env q
             else if (detect_query_type env.ragAvailable
                 env.docCount q).type = "web_search" then
               process_web_search_query q
             else process_general_query env q).status := rfl
      rw [this, ht,
        if_neg (by decide : ¬("web_search" : String) = "document"),
        if_pos rfl]
      rfl
    exact ⟨by rw [hs]; decide, by rw [hs]; decide, hst⟩
  · have hs : (unified_process_query env (some q)).source
        = "general_knowledge" := by
      rw [unified_process_query_some_source, ht,
        if_neg (by decide : ¬("general" : String) = "document"),
        if_neg (by decide : ¬("general" : String) = "web_search")]
      exact process_general_query_source env q
    have hst : (unified_process_query env (some q)).status = "success" := by
      have : (unified_process_query env (some q)).status
          = (if (detect_query_type env.ragAvailable env.docCount q).type
                = "document" then process_document_query env q
             else if (detect_query_type env.ragAvailable
                 env.docCount q).type = "web_search" then
               process_web_search_query q
             else process_general_query env q).status := rfl
      rw [this, ht,
        if_neg (by decide : ¬("general" : String) = "document"),
        if_neg (by decide : ¬("general" : String) = "web_search")]
      exact process_general_query_status env q
    exact ⟨by rw [hs]; decide, by rw [hs]; decide, hst⟩

/-- A concrete environment for the C8 witness: empty corpus. -/
def c8env : AgentEnv :=
  { ragAvailable := true, docCount := 0,
    cleanEnv := { searchOk := true, geminiAvailable := false,
                  geminiOk := false, geminiText := "" },
    searchResults := [], nowTime := "00:00:00", nowDate := "2026-10-12" }

/-- Closed witness for C8 on an empty corpus and a concrete query. -/
theorem C8_empty_corpus_never_document_witness :
    (unified_process_query c8env (some "hello")).source ≠ "document"
    ∧ (unified_process_query c8env (some "hello")).source
        ∈ (["web_search", "general_knowledge"] : List String)
    ∧ (unified_process_query c8env (some "hello")).status = "success" :=
  C8_empty_corpus_never_document c8env "hello" rfl

/-! ### `core/utils.py` — PdfConverter, and
`services/document_service.py` — DocumentService -/

/-- Outcome of the PDF renderer on one file: readable with `pages`
physical pages, or unreadable/corrupted. -/
inductive ConvertOutcome where
  | ok (pages : Nat)
  | unreadable
deriving DecidableEq, Repr

/-- `PdfConverter.pdf_to_image` / `convert`: one page dictionary per
rendered page; when the renderer cannot open or decode the file the
exception is caught, an error is printed and the empty list is returned
(no exception escapes to the ingestion loop).  `DocumentService` only
uses the length of this list and the page index (the converter's page
dictionaries carry no `text` key, so the text fallback
`"Page {i+1} of {filename}"` is always used), so the page list is
modelled by its length. -/
def pdf_to_image : ConvertOutcome → Nat
  | .ok n => n
  | .unreadable => 0

/-- One element of the `files` argument of
`DocumentService.process_documents`: the upload's filename and what the
PDF renderer does with the saved file. -/
structure UploadedFile where
  filename : String
  outcome : ConvertOutcome
deriving DecidableEq, Repr

/-- One element of the `all_data` list: the page dictionary built by
`process_documents` for page `i+1` of a file. -/
structure PageRecord where
  doc_id : String
  page_number : Nat
  filename : String
  text_content : String
deriving DecidableEq, Repr

/-- Python's `s.endswith(suffix)`. -/
def strEndsWith (s suffix : String) : Bool :=
  decide (suffix.data <:+ s.data)

/-- The guard `file.filename.lower().endswith('.pdf')`. -/
def isPdfName (name : String) : Bool :=
  strEndsWith (pyLower name) ".pdf"

/-- The page dictionaries built for one file
(`for i, page_data in enumerate(data)`, 1-based `page_number`). -/
def pageRecords (docId : String) (filename : String) (n : Nat) :
    List PageRecord :=
  (List.range n).map fun i =>
    { doc_id := docId, page_number := i + 1, filename := filename,
      text_content := "Page " ++ toString (i + 1) ++ " of " ++ filename }

/-- Loop state of `process_documents`: the size of
`self.document_store` (a `doc_{n}` id is assigned per PDF file, failed
ones included), the accumulated `all_data`, and `processed_files` —
which the code appends to once per *page*, inside the page loop. -/
structure IngestState where
  storeSize : Nat
  all_data : List PageRecord
  processed_files : List String
deriving DecidableEq, Repr

/-- One iteration of the `for file in files` loop of
`process_documents`: non-PDF filenames are skipped with a warning; a PDF
file gets a `doc_{n}` id and contributes one page record and one
`processed_files` entry per page — an unreadable PDF contributes zero of
each (its conversion returns `[]`) and the loop simply continues. -/
def ingest_step (st : IngestState) (f : UploadedFile) : IngestState :=
  if isPdfName f.filename then
    { storeSize := st.storeSize + 1,
      all_data := st.all_data
        ++ pageRecords ("doc_" ++ toString (st.storeSize + 1)) f.filename
             (pdf_to_image f.outcome),
      processed_files := st.processed_files
        ++ List.replicate (pdf_to_image f.outcome) f.filename }
  else st

/-- The summary dictionary returned by `process_documents`.  The Python
code never sets an `errors` key on any branch; the `errors := none`
default records that absence. -/
structure IngestionSummary where
  status : String
  message : String := ""
  pages_processed : Nat := 0
  files_processed : List String := []
  embeddings_generated : Nat := 0
  errors : Option (List String) := none
deriving DecidableEq, Repr

/-- `DocumentService.process_documents`.  `storeSize0` is the size of the
persistent `document_store` before this call; `indexOk` records whether
`rag_instance.index_document(all_data)` returns without raising. -/
def process_documents (storeSize0 : Nat) (indexOk : Bool)
    (files : List UploadedFile) : IngestionSummary :=
  let st := files.foldl ingest_step
    { storeSize := storeSize0, all_data := [], processed_files := [] }
  if st.all_data.isEmpty = false then
    if indexOk then
      { status := "success",
        message := "Documents processed and indexed with embeddings. "
          ++ toString st.all_data.length ++ " pages processed.",
        pages_processed := st.all_data.length,
        files_processed := st.processed_files,
        embeddings_generated := st.all_data.length,
        errors := none }
    else
      { status := "error",
        message := "Failed to index documents: indexing raised" }
  else
    { status := "error",
      message := "No valid PDF documents found to process." }

/-- The three-file batch of the C5 scenario: two readable PDFs (2 pages
and 1 page) around one corrupted PDF. -/
def c5files : List UploadedFile :=
  [{ filename := "a.pdf", outcome := .ok 2 },
   { filename := "bad.pdf", outcome := .unreadable },
   { filename := "c.pdf", outcome := .ok 1 }]

/-- C5 counterexample: ingesting 3 files of which exactly one is a
corrupted PDF does keep processing the remaining files
(`pages_processed = 3`, the failed file absent from `files_processed`),
but the summary contains NO errors entry identifying the failed file
(the code never sets an `errors` key), and each valid filename appears
once per page (duplicated), not once per file.  This refutes the claimed
`errors` reporting. -/
theorem C5_counterexample :
    (process_documents 0 true c5files).files_processed
        = ["a.pdf", "a.pdf", "c.pdf"]
    ∧ (process_documents 0 true c5files).pages_processed = 3
    ∧ (process_documents 0 true c5files).errors = none
    ∧ (process_documents 0 true c5files).status = "success" :=
  ⟨by decide, by decide, by decide, by decide⟩

/-- Closed form of the `processed_files` list: one entry per page of
each readable PDF, in batch order. -/
def processedFilesSpec : List UploadedFile → List String
  | [] => []
  | f :: rest =>
    (if isPdfName f.filename then
       List.replicate (pdf_to_image f.outcome) f.filename
     else []) ++ processedFilesSpec rest

/-- Total number of pages contributed by a batch. -/
def totalPages : List UploadedFile → Nat
  | [] => 0
  | f :: rest =>
    (if isPdfName f.filename then pdf_to_image f.outcome else 0)
      + totalPages rest

theorem ingest_foldl_spec :
    ∀ (files : List UploadedFile) (st : IngestState),
      (files.foldl ingest_step st).processed_files
          = st.processed_files ++ processedFilesSpec files
      ∧ (files.foldl ingest_step st).all_data.length
          = st.all_data.length + totalPages files
  | [], st => by simp [processedFilesSpec, totalPages]
  | f :: rest, st => by
    have ih := ingest_foldl_spec rest (ingest_step st f)
    simp only [List.foldl_cons]
    refine ⟨?_, ?_⟩
    · rw [ih.1, processedFilesSpec]
      by_cases h : isPdfName f.filename
      · simp [ingest_step, h, List.append_assoc]
      · simp [ingest_step, h]
    · rw [ih.2, totalPages]
      by_cases h : isPdfName f.filename
      · simp only [ingest_step, if_pos h, List.length_append,
          pageRecords, List.length_map, List.length_range]
        omega
      · simp [ingest_step, h]

theorem mem_processedFilesSpec_of {f : UploadedFile} :
    ∀ files : List UploadedFile, f ∈ files → isPdfName f.filename →
      0 < pdf_to_image f.outcome →
      f.filename ∈ processedFilesSpec files
  | [], hf, _, _ => absurd hf (List.not_mem_nil f)
  | g :: rest, hf, hpdf, hpos => by
    rw [processedFilesSpec]
    rcases List.mem_cons.mp hf with h | h
    · subst h
      rw [if_pos hpdf]
      exact List.mem_append_left _
        (List.mem_replicate.mpr ⟨by omega, rfl⟩)
    · exact List.mem_append_right _
        (mem_processedFilesSpec_of rest h hpdf hpos)

theorem mem_processedFilesSpec_src {name : String} :
    ∀ files : List UploadedFile, name ∈ processedFilesSpec files →
      ∃ g ∈ files, g.filename = name ∧ isPdfName g.filename
        ∧ 0 < pdf_to_image g.outcome
  | [], h => by simp [processedFilesSpec] at h
  | g :: rest, h => by
    rw [processedFilesSpec] at h
    rcases List.mem_append.mp h with h | h
    · by_cases hpdf : isPdfName g.filename
      · rw [if_pos hpdf] at h
        obtain ⟨hn, heq⟩ := List.mem_replicate.mp h
        exact ⟨g, List.mem_cons_self _ _, heq.symm, hpdf,
          Nat.pos_of_ne_zero hn⟩
      · rw [if_neg hpdf] at h
        exact absurd h (List.not_mem_nil name)
    · obtain ⟨g', hg', hprop⟩ := mem_processedFilesSpec_src rest h
      exact ⟨g', List.mem_cons_of_mem _ hg', hprop⟩

/-- C5 amended: on a batch with at least one readable PDF page and a
successful indexing call, `process_documents` returns a success summary
whose `pages_processed` and `embeddings_generated` count only the
readable files' pages, whose `files_processed` lists each readable PDF's
filename once *per page* (so a file that converts to zero pages — in
particular an unreadable PDF — never appears, and multi-page files appear
repeatedly), processing continues past failed files, but the summary
carries no `errors` entry identifying the failed files. -/
theorem C5_amended_partial_failure (storeSize0 : Nat)
    (files : List UploadedFile) (h : 0 < totalPages files) :
    (process_documents storeSize0 true files).status = "success"
    ∧ (process_documents storeSize0 true files).pages_processed
        = totalPages files
    ∧ (process_documents storeSize0 true files).embeddings_generated
        = totalPages files
    ∧ (process_documents storeSize0 true files).files_processed
        = processedFilesSpec files
    ∧ (process_documents storeSize0 true files).errors = none
    ∧ (∀ f ∈ files, isPdfName f.filename → 0 < pdf_to_image f.outcome →
        f.filename
          ∈ (process_documents storeSize0 true files).files_processed)
    ∧ (∀ f ∈ files, pdf_to_image f.outcome = 0 →
        (∀ g ∈ files, g.filename = f.filename →
          pdf_to_image g.outcome = 0) →
        f.filename
          ∉ (process_documents storeSize0 true files).files_processed) := by
  have hspec := ingest_foldl_spec files
    { storeSize := storeSize0, all_data := [], processed_files := [] }
  have hlen : (files.foldl ingest_step
      { storeSize := storeSize0, all_data := [],
        processed_files := [] }).all_data.length = totalPages files := by
    rw [hspec.2]
    simp
  have hnil : (files.foldl ingest_step
      { storeSize := storeSize0, all_data := [],
        processed_files := [] }).all_data ≠ [] := by
    intro hn
    rw [hn] at hlen
    simp at hlen
    omega
  have hne : (files.foldl ingest_step
      { storeSize := storeSize0, all_data := [],
        processed_files := [] }).all_data.isEmpty = false := by
    cases hc : (files.foldl ingest_step
        { storeSize := storeSize0, all_data := [],
          processed_files := [] }).all_data with
    | nil => exact absurd hc hnil
    | cons a l => rfl
  have hpf : (files.foldl ingest_step
      { storeSize := storeSize0, all_data := [],
        processed_files := [] }).processed_files
      = processedFilesSpec files := by
    rw [hspec.1]
    simp
  have hres : process_documents storeSize0 true files
      = { status := "success",
          message := "Documents processed and indexed with embeddings. "
            ++ toString (totalPages files) ++ " pages processed.",
          pages_processed := totalPages files,
          files_processed := processedFilesSpec files,
          embeddings_generated := totalPages files,
          errors := none } := by
    rw [process_documents]
    simp only [hne, hlen, hpf, if_pos rfl, if_pos trivial]
  rw [hres]
  refine ⟨rfl, rfl, rfl, rfl, rfl, ?_, ?_⟩
  · intro f hf hpdf hpos
    exact mem_processedFilesSpec_of files hf hpdf hpos
  · intro f hf hzero hall hmem
    obtain ⟨g, hg, hname, _, hgpos⟩ :=
      mem_processedFilesSpec_src files hmem
    have := hall g hg hname
    omega

/-- Closed witness for the amended C5 at the three-file batch. -/
theorem C5_amended_partial_failure_witness :
    (process_documents 0 true c5files).status = "success"
    ∧ (process_documents 0 true c5files).pages_processed
        = totalPages c5files := by
  have h := C5_amended_partial_failure 0 c5files (by decide)
  exact ⟨h.1, h.2.1⟩
